import Mathlib

/-
Verification of the parcel asset-build core.

This file gives a shallow embedding of the two source files the claims are
about: `crates/core/src/requests/asset_request.rs` (the asset request and the
transformer pipeline) and `crates/db/src/alloc.rs` (the page allocator, the
bump arena and the slab free-list allocator), and proves or refutes the
stated properties about them.

Opaque payload types of the data model (path components, plugin identifiers,
diagnostics, dependencies, environments, bytes) are represented by `String`
or `Nat` stand-ins; the code under scrutiny never inspects their contents,
only moves them around and compares them for equality.
-/

/-- Representation of a Rust `PathBuf` by its list of components, in order
(the view `FilePath::components` yields; `components().any(|c| ...)` becomes
`List.any`). -/
abbrev FilePath := List String

/-- Byte buffers (`Vec<u8>`); byte values are irrelevant to the claims. -/
abbrev Code := List Nat

/-- Stand-in for `Diagnostic` (message payload is opaque to the core). -/
abbrev Diagnostic := String

/-- Stand-in for `Dependency` (opaque payload produced by transformers). -/
abbrev Dependency := String

/-- Stand-in for a `PluginNode` (a transformer plugin identifier; the spec
compares pipelines by structural equality of the plugin-identifier list). -/
abbrev PluginNode := String

/-- Stand-in for an interned `Environment` (opaque to the asset request). -/
abbrev Env := String

/-- Modelled from the spec: `types.rs` is not among the sources. The spec says
`asset_type` is derived from the file extension and mutable across a chain;
we represent an `AssetType` by its extension string, so `from_extension` and
`extension` are mutually inverse. -/
abbrev AssetType := String

/-- Modelled from the spec: `AssetType::from_extension` (derives the type from
an extension string). -/
def AssetType.fromExtension (s : String) : AssetType := s

/-- Modelled from the spec: `AssetType::extension` (the extension a type maps
back to, used by `run_pipeline` for `with_extension`). -/
def AssetType.extension (t : AssetType) : String := t

/-- Splitting of a string at `.` characters (the behavior of
`String.splitOn "."`), by structural recursion over the character list with
an accumulator for the current piece. -/
def splitDot : List Char → List Char → List String
  | [], acc => [String.mk acc.reverse]
  | c :: cs, acc =>
    if c = '.' then String.mk acc.reverse :: splitDot cs []
    else splitDot cs (c :: acc)

/-- The dot-separated pieces of a file name. -/
def nameParts (name : String) : List String :=
  splitDot name.data []

/-- Extension of a file name, after Rust `FilePath::extension`: the part of the
last component after its last `.`; `none` when there is no dot or when the
name is a dot-file such as `.gitignore`. -/
def fileExtension (name : String) : Option String :=
  let parts := nameParts name
  if parts.length ≤ 1 then none
  else if parts.length = 2 ∧ parts.headD "" = "" then none
  else some (parts.getLastD "")

/-- File name with its extension replaced, after Rust `FilePath::with_extension`. -/
def fileWithExtension (name ext : String) : String :=
  let parts := nameParts name
  let stem :=
    if parts.length ≤ 1 then name
    else if parts.length = 2 ∧ parts.headD "" = "" then name
    else String.intercalate "." parts.dropLast
  if ext = "" then stem else stem ++ "." ++ ext

/-- Rust `FilePath::extension` lifted to whole paths (extension of the last
component, if any). -/
def FilePath.extension (p : FilePath) : Option String :=
  match p.getLast? with
  | none => none
  | some name => fileExtension name

/-- Rust `FilePath::with_extension` lifted to whole paths (replaces the extension
of the last component; an empty path is returned unchanged, as `set_extension`
fails when there is no file name). -/
def FilePath.withExtension (p : FilePath) (ext : String) : FilePath :=
  match p.getLast? with
  | none => p
  | some name => p.dropLast ++ [fileWithExtension name ext]

/-- Modelled from the spec: `AssetStats` (`types.rs` is not among the sources;
the spec lists `stats` as size and time, and `asset_request.rs` writes
`stats.size` as a `u32`). -/
structure AssetStats where
  size : Nat
  time : Nat
deriving DecidableEq, Repr

/-- Modelled from the spec: `BundleBehavior`; `asset_request.rs` only uses the
`BundleBehavior::None` variant. -/
inductive BundleBehavior where
  | none
  | inline
  | isolated
deriving DecidableEq, Repr

/-- Modelled from the spec: the `AssetFlags` bitset, as a record of the named
flags the spec and `asset_request.rs` use (`IS_BUNDLE_SPLITTABLE`,
`IS_SOURCE`, `SIDE_EFFECTS`). -/
structure AssetFlags where
  isBundleSplittable : Bool
  isSource : Bool
  sideEffects : Bool
deriving DecidableEq, Repr

/-- Modelled from the spec: the `Asset` record of §3 with the fields the
initializer in `AssetRequest::run` (lines 54-75) populates. Hash values
(`HashValue(u64)`) are plain `Nat`s. -/
structure Asset where
  file_path : FilePath
  env : Env
  query : Option String
  asset_type : AssetType
  content_key : Nat
  map_key : Option String
  output_hash : Nat
  pipeline : Option String
  meta : List (String × String)
  stats : AssetStats
  bundle_behavior : BundleBehavior
  flags : AssetFlags
  symbols : List String
  unique_key : Option String
deriving DecidableEq, Repr

/-- Modelled from the spec: the `Invalidation` enumeration of §3
(`request_tracker.rs` is not among the sources). -/
inductive Invalidation where
  | InvalidateOnFileUpdate (path : FilePath)
  | InvalidateOnFileCreate (path : FilePath)
  | InvalidateOnFileDelete (path : FilePath)
  | InvalidateOnEnvChange (key : String)
  | InvalidateOnStartup
deriving DecidableEq, Repr

deriving instance DecidableEq for Except

/-- The `TransformerResult` record of `asset_request.rs` (lines 111-118). -/
structure TransformerResult where
  asset : Asset
  code : Code
  dependencies : List Dependency
  invalidations : List Invalidation
deriving DecidableEq, Repr

/-- Modelled from the spec: the transformer-map lookup
`PipelineMap::get(path, pipeline, named_only)` (`parcel_config.rs` is not
among the sources); it is kept fully abstract as a function yielding the
ordered transformer chain. -/
abbrev PipelineMap := FilePath → Option String → Bool → List PluginNode

/-- Modelled from the spec: `run_transformer` dispatches one plugin as a pure
function `(asset, bytes) → transformed` that may fail with diagnostics
(`transformers.rs` is not among the sources). -/
abbrev Transform := PluginNode → Asset → Code → Except (List Diagnostic) TransformerResult

/-- External collaborators of `AssetRequest::run`, bundled: the transformer
map and plugin runner, `options.input_fs.read` (errors are the message
carried by a failed read), `xxhash_rust::xxh3::xxh3_64` and `Asset::id`
(the identity hash; not among the sources, kept abstract). -/
structure RunEnv where
  tm : PipelineMap
  tf : Transform
  fsRead : FilePath → Except String Code
  xxh3 : Code → Nat
  assetId : Asset → Nat

/-- Accumulation step at the bottom of the `run_pipeline` loop (lines
165-168): commit the transformed asset and code and extend the dependency
and invalidation accumulators. -/
def stepResult (res : TransformerResult) (tr : TransformerResult) : TransformerResult :=
  { asset := tr.asset
    code := tr.code
    dependencies := res.dependencies ++ tr.dependencies
    invalidations := res.invalidations ++ tr.invalidations }

/-- The loop of `run_pipeline` (lines 145-169). `pipeline` is the full current
chain (the comparison target), `remaining` the transformers still to run and
`res` the accumulator. The Rust recursion is not structurally terminating
(two chains can restart into each other forever), so a step of `fuel` is
consumed per iteration; `none` models non-termination. A transformer error
returns the diagnostics unchanged. When the transformed `asset_type` differs
from the one before the call, the map is re-queried at the path with the new
type's extension; an unequal chain restarts the pipeline from its start on
the transformed asset and code with fresh accumulators, an equal chain
continues with the next transformer. -/
def runPipelineGo (tf : Transform) (tm : PipelineMap) :
    Nat → List PluginNode → List PluginNode → TransformerResult →
    Option (Except (List Diagnostic) TransformerResult)
  | 0, _, _, _ => none
  | fuel + 1, pipeline, remaining, res =>
    match remaining with
    | [] => some (.ok res)
    | t :: rest =>
      match tf t res.asset res.code with
      | .error ds => some (.error ds)
      | .ok tr =>
        if tr.asset.asset_type = res.asset.asset_type then
          runPipelineGo tf tm fuel pipeline rest (stepResult res tr)
        else
          let nextPath := FilePath.withExtension tr.asset.file_path (AssetType.extension tr.asset.asset_type)
          let nextPipeline := tm nextPath tr.asset.pipeline false
          if nextPipeline = pipeline then
            runPipelineGo tf tm fuel pipeline rest (stepResult res tr)
          else
            runPipelineGo tf tm fuel nextPipeline nextPipeline ⟨tr.asset, tr.code, [], []⟩

/-- `run_pipeline` (lines 130-172): run the chain on the asset and code with
empty dependency and invalidation accumulators. -/
def runPipeline (tf : Transform) (tm : PipelineMap) (fuel : Nat)
    (pipeline : List PluginNode) (asset : Asset) (code : Code) :
    Option (Except (List Diagnostic) TransformerResult) :=
  runPipelineGo tf tm fuel pipeline pipeline ⟨asset, code, [], []⟩

/-- Hexadecimal digit character (lowercase, as Rust `{:x}` formatting). -/
def hexChar (n : Nat) : Char :=
  if n < 10 then Char.ofNat (48 + n) else Char.ofNat (87 + n)

/-- Hexadecimal digit list of a number, most significant first, by
structural recursion on a digit budget. -/
def hexDigitsAux : Nat → Nat → List Char → List Char
  | 0, n, acc => hexChar (n % 16) :: acc
  | fuel + 1, n, acc =>
    if n < 16 then hexChar n :: acc
    else hexDigitsAux fuel (n / 16) (hexChar (n % 16) :: acc)

/-- Hexadecimal digit list of a number, most significant first (a budget of
64 digits covers every value below 16^64, in particular every `u64`). -/
def hexDigits (n : Nat) : List Char :=
  hexDigitsAux 64 n []

/-- Rust `format!("{:016x}", v)`: lowercase hexadecimal, left-padded with
zeros to width 16 (a `u64` always fits in 16 digits). -/
def format016x (n : Nat) : String :=
  let ds := hexDigits n
  ⟨List.replicate (16 - ds.length) '0' ++ ds⟩

/-- The `AssetRequest` input record (lines 17-25); the `transformers` map
reference lives in `RunEnv` together with the other collaborators reached
through `farm` and `options`. -/
structure AssetRequest where
  file_path : FilePath
  code : Option Code
  pipeline : Option String
  env : Env
  side_effects : Bool
deriving DecidableEq, Repr

/-- The `AssetRequestResult` output record (lines 27-31). -/
structure AssetRequestResult where
  asset : Asset
  dependencies : List Dependency
deriving DecidableEq, Repr

/-- Everything observable from one call of `AssetRequest::run`: a normal
return carries the request result (`Ok` payload or diagnostics), the
invalidation list and the list of blob-cache writes (`options.cache.set`
calls, key and bytes, in order) made during the call; `panicked` models the
`unwrap()` of a failed file-system read; `outOfFuel` a non-terminating
pipeline. -/
inductive RunOutcome where
  | returns (result : Except (List Diagnostic) AssetRequestResult)
      (invalidations : List Invalidation)
      (writes : List (String × Code))
  | panicked
  | outOfFuel
deriving DecidableEq, Repr

/-- The initial asset constructed by `AssetRequest::run` (lines 44-75):
flags start at `IS_BUNDLE_SPLITTABLE`, `IS_SOURCE` is set iff no path
component equals `node_modules`, `SIDE_EFFECTS` comes from the input, the
type is derived from the extension, hashes are zeroed. -/
def AssetRequest.initialAsset (req : AssetRequest) : Asset :=
  { file_path := req.file_path
    env := req.env
    query := none
    asset_type := AssetType.fromExtension ((FilePath.extension req.file_path).getD "")
    content_key := 0
    map_key := none
    output_hash := 0
    pipeline := req.pipeline
    meta := []
    stats := { size := 0, time := 0 }
    bundle_behavior := BundleBehavior.none
    flags :=
      { isBundleSplittable := true
        isSource := !(req.file_path.any (fun c => c = "node_modules"))
        sideEffects := req.side_effects }
    symbols := []
    unique_key := none }

/-- `AssetRequest::run` (lines 36-108): look up the chain, build the initial
asset, obtain the bytes (caller-supplied code wins, otherwise the file is
read and the result is `unwrap()`ed — a read failure panics), run the
pipeline, and on success set `output_hash = xxh3_64(final bytes)`, then
`content_key = asset.id()`, then `stats.size = len as u32`, and write
`(format!("{:016x}", content_key), final bytes)` to the blob cache. Whether
the pipeline succeeded or failed, `InvalidateOnFileUpdate(file_path)` is
pushed onto the invalidation list last. -/
def AssetRequest.run (env : RunEnv) (fuel : Nat) (req : AssetRequest) : RunOutcome :=
  let pipeline := env.tm req.file_path req.pipeline false
  let asset := req.initialAsset
  let code? : Option Code :=
    match req.code with
    | some c => some c
    | none =>
      match env.fsRead req.file_path with
      | .ok c => some c
      | .error _ => none
  match code? with
  | none => .panicked
  | some code =>
    match runPipeline env.tf env.tm fuel pipeline asset code with
    | none => .outOfFuel
    | some (.error ds) => .returns (.error ds) [.InvalidateOnFileUpdate req.file_path] []
    | some (.ok r) =>
      let a1 := { r.asset with output_hash := env.xxh3 r.code }
      let a2 := { a1 with content_key := env.assetId a1 }
      let a3 := { a2 with stats := { a2.stats with size := r.code.length % 2 ^ 32 } }
      .returns (.ok { asset := a3, dependencies := r.dependencies })
        (r.invalidations ++ [.InvalidateOnFileUpdate req.file_path])
        [(format016x a3.content_key, r.code)]

/-- The asset of a successful normal return, when there is one. -/
def outcomeAsset : RunOutcome → Option Asset
  | .returns (.ok r) _ _ => some r.asset
  | _ => none

/-
Memory substrate: `crates/db/src/alloc.rs`. Constants there: PAGE_SIZE =
65536, PTR_MAX = u32::MAX, NUM_PAGES = PTR_MAX / PAGE_SIZE + 1 = 65536,
PAGE_INDEX_SIZE = ilog2(65536) = 16, PAGE_INDEX_SHIFT = 32 - 16 = 16,
PAGE_INDEX_MASK = 0xFFFF0000, PAGE_OFFSET_MASK = 0xFFFF. Masking a `u32`
with 0xFFFF is `% 65536` and shifting right by 16 is `/ 65536`, so the
pack/unpack bit fiddling is rendered with division and remainder.
-/

/-- Page size of the page allocator (64 KiB). -/
def PAGE_SIZE : Nat := 65536

/-- One more than `u32::MAX`: `u32` arithmetic wraps modulo this. -/
def U32 : Nat := 4294967296

/-- The `pack_addr` helper (lines 22-25):
`(page << 16) | (offset & 0xFFFF)` on `u32`s. -/
def pack_addr (page offset : Nat) : Nat :=
  page % 65536 * 65536 + offset % 65536

/-- The `unpack_addr` helper (lines 15-20):
`((addr & 0xFFFF0000) >> 16, addr & 0xFFFF)` on a `u32`. -/
def unpack_addr (addr : Nat) : Nat × Nat :=
  (addr / 65536 % 65536, addr % 65536)

/-- Rounding to the next multiple of 8 on `usize` (no realistic wrap):
`(n + 7) & !7`, as in `Arena::dealloc`'s end-pointer computation. -/
def round8 (n : Nat) : Nat :=
  (n + 7) / 8 * 8

/-- Rounding to the next multiple of 8 on `u32` (wrapping add, then mask):
`(size + 7) & !7`, as at the top of `Arena::alloc`. -/
def round8u32 (n : Nat) : Nat :=
  (n + 7) % U32 / 8 * 8

/-- A `FreeNode { slots, next }` of the slab free list (lines 236-240),
written in place at the start of a freed range. -/
structure FreeNode where
  slots : Nat
  next : Nat
deriving DecidableEq, Repr

/-- Combined state of the thread-local memory substrate: the page allocator
(`pages` records the byte length of each allocated page, in order), the heap
memory viewed as the `FreeNode` stored at each 32-bit address (`mem`; only
addresses a `FreeNode` was written to are ever read by the modelled code),
the `Arena` cursor `addr` (initially 1, the null handle) and the slab's
`free_head` (initially 1). -/
structure AllocState where
  pages : List Nat
  mem : Nat → FreeNode
  arenaAddr : Nat
  freeHead : Nat

/-- A fresh thread-local state: no pages, uninitialized memory, `Arena::new`
cursor 1, `Slab::new` free head 1. -/
def freshAllocState : AllocState :=
  { pages := [], mem := fun _ => ⟨0, 0⟩, arenaAddr := 1, freeHead := 1 }

/-- `PageAllocator::alloc_page` (lines 53-65): append a page of
`max(min_size, PAGE_SIZE)` bytes and return its index. -/
def allocPage (s : AllocState) (minSize : Nat) : AllocState × Nat :=
  ({ s with pages := s.pages ++ [max minSize PAGE_SIZE] }, s.pages.length)

/-- `Arena::alloc` (lines 147-169): round the size up to 8 bytes; if the
cursor is the null handle 1, grab a fresh page and place the allocation at
its start; otherwise, if the current page cannot hold the rounded size
(`(offset + size) as usize >= page.len()`), grab a fresh page; else bump the
cursor by the rounded size and return the previous cursor. -/
def arenaAlloc (s : AllocState) (size0 : Nat) : AllocState × Nat :=
  let size := round8u32 size0
  if s.arenaAddr = 1 then
    let (s1, p) := allocPage s size
    ({ s1 with arenaAddr := pack_addr p size }, pack_addr p 0)
  else
    let page := (unpack_addr s.arenaAddr).1
    let offset := (unpack_addr s.arenaAddr).2
    let pageLen := s.pages.getD page 0
    if pageLen ≤ (offset + size) % U32 then
      let (s1, p) := allocPage s size
      ({ s1 with arenaAddr := pack_addr p size }, pack_addr p 0)
    else
      ({ s with arenaAddr := (s.arenaAddr + size) % U32 }, s.arenaAddr)

/-- `Arena::dealloc` (lines 171-188). The freed block is identified by the
page and offset its raw pointer points at; the layout size is `size0`. If
the cursor offset is 0 the call returns at once. The pointer-equality test
`cur_ptr == end_ptr` compares `page base + cursor offset` against
`ptr + ((size + 7) & !7)`, which holds iff the block lives on the cursor's
page and its rounded end is the cursor offset; in that case the cursor is
decremented by the *unrounded* `layout.size() as u32`. Anything else is a
no-op. -/
def arenaDealloc (s : AllocState) (ptrPage ptrOff size0 : Nat) : AllocState :=
  if (unpack_addr s.arenaAddr).2 = 0 then s
  else if ptrPage = (unpack_addr s.arenaAddr).1 ∧
      ptrOff + round8 size0 = (unpack_addr s.arenaAddr).2 then
    { s with arenaAddr := (s.arenaAddr + U32 - size0 % U32) % U32 }
  else s

/-- The free-list walk of `Slab::alloc` (lines 253-281). `sizeT` is
`size_of::<T>()`, `prev` the location the current node was reached from
(`none`: the slab's `free_head` itself; `some pa`: the `next` field of the
node at `pa`). On the first node with `slots >= count`: a strictly larger
node is split from its tail (`slots -= count`, returning
`node_addr + size * slots` with the decremented `slots`); an exact fit is
unlinked (`*prev = node.next`). A node with `next == 1` ends the walk and
falls back to `current_arena().alloc(size * count)`. The walk itself is
fuel-counted (`none` = the unbounded Rust loop ran out of fuel). -/
def slabWalk (sizeT count : Nat) :
    Nat → AllocState → Option Nat → Nat → Option (AllocState × Nat)
  | 0, _, _, _ => none
  | fuel + 1, s, prev, addr =>
    let node := s.mem addr
    if count ≤ node.slots then
      if count < node.slots then
        let slots := node.slots - count
        let s1 := { s with
          mem := fun a => if a = addr then { slots := slots, next := node.next } else s.mem a }
        some (s1, (addr + sizeT * slots) % U32)
      else
        let s1 :=
          match prev with
          | none => { s with freeHead := node.next }
          | some pa => { s with
              mem := fun a => if a = pa then { s.mem pa with next := node.next } else s.mem a }
        some (s1, addr)
    else if node.next = 1 then
      some (arenaAlloc s (sizeT * count % U32))
    else
      slabWalk sizeT count fuel s (some addr) node.next

/-- `Slab::alloc` (lines 250-285): walk the free list when it is non-empty
(`free_head != 1`), otherwise bump-allocate `size * count` bytes from the
thread-local arena. -/
def slabAlloc (fuel sizeT : Nat) (s : AllocState) (count : Nat) :
    Option (AllocState × Nat) :=
  if s.freeHead = 1 then
    some (arenaAlloc s (sizeT * count % U32))
  else
    slabWalk sizeT count fuel s none s.freeHead

/-- `Slab::dealloc` (lines 287-308): write `FreeNode { slots := count,
next := free_head }` at `addr` and point `free_head` at `addr`. -/
def slabDealloc (s : AllocState) (addr count : Nat) : AllocState :=
  { s with
    mem := fun a => if a = addr then { slots := count, next := s.freeHead } else s.mem a
    freeHead := addr }

/-- The §8 slab-reuse call sequence on a fresh thread-local state with
`size_of::<T>() = 8` (the `test_slab` unit test): the four `alloc` results,
in order, or `none` if any walk ran out of fuel. -/
def slabReuseSequence : Option (List Nat) :=
  let s0 := freshAllocState
  (slabAlloc 10 8 s0 5).bind fun r1 =>
  (slabAlloc 10 8 r1.1 2).bind fun r2 =>
  let s3 := slabDealloc r2.1 r1.2 5
  (slabAlloc 10 8 s3 1).bind fun r4 =>
  let s5 := slabDealloc r4.1 r2.2 2
  (slabAlloc 10 8 s5 4).map fun r6 =>
  [r1.2, r2.2, r4.2, r6.2]

/-- Reachable run of a `Slab<T>` with `size_of::<T>() = 1` in which an
allocation is handed out at address 1: from a fresh state, `alloc(5)`
bump-allocates address 0, `dealloc(0, 5)` frees the run, `alloc(4)` splits
the 5-slot node and returns `0 + 1 * 1 = 1`; after `dealloc(1, 4)` the slab's
`free_head` becomes 1, which `Slab::alloc` reads as the empty free list, so
the next `alloc(4)` bump-allocates fresh arena memory instead of returning 1.
Yields the pair (freed address, address returned by the following alloc). -/
def slabSentinelRun : Option (Nat × Nat) :=
  let s0 := freshAllocState
  (slabAlloc 9 1 s0 5).bind fun r1 =>
  let s2 := slabDealloc r1.1 r1.2 5
  (slabAlloc 9 1 s2 4).bind fun r3 =>
  let s4 := slabDealloc r3.1 r3.2 4
  (slabAlloc 9 1 s4 4).map fun r5 =>
  (r3.2, r5.2)

/-- From a fresh state: `a = Arena::alloc(4)`, then `Arena::dealloc` of that
block with layout size 4, then `Arena::alloc(4)` again. Yields
(first address, address returned by the re-allocation). The cursor advances
by the rounded size 8 but the dealloc only takes back the unrounded 4. -/
def arenaLifoUnroundedRun : Nat × Nat :=
  let s0 := freshAllocState
  let r1 := arenaAlloc s0 4
  let u := unpack_addr r1.2
  let s2 := arenaDealloc r1.1 u.1 u.2 4
  let r3 := arenaAlloc s2 4
  (r1.2, r3.2)

/-
Concrete instances used to exercise the model on explicit inputs.
-/

/-- An asset for `a.ts` before any transformation. -/
def tsAsset : Asset :=
  { file_path := ["a.ts"]
    env := ""
    query := none
    asset_type := "ts"
    content_key := 0
    map_key := none
    output_hash := 0
    pipeline := none
    meta := []
    stats := { size := 0, time := 0 }
    bundle_behavior := BundleBehavior.none
    flags := { isBundleSplittable := true, isSource := true, sideEffects := false }
    symbols := []
    unique_key := none }

/-- A pipeline accumulator holding `tsAsset` with one dependency already
collected. -/
def tsRes : TransformerResult :=
  { asset := tsAsset, code := [9], dependencies := ["dprev"], invalidations := [] }

/-- The result of the `T1` transformer below on `tsAsset`: the asset type
flips to `js` and a dependency `d1` plus an invalidation are produced. -/
def tr1 : TransformerResult :=
  { asset := { tsAsset with asset_type := "js" }, code := [9]
    dependencies := ["d1"], invalidations := [Invalidation.InvalidateOnStartup] }

/-- Transformer map: `a.ts` maps to the chain `[T1, T2]`, everything else
(in particular `a.js`) to `[T3]`. -/
def restartTm : PipelineMap :=
  fun p _ _ => if p = ["a.ts"] then ["T1", "T2"] else ["T3"]

/-- Plugin runner: `T1` flips the asset type to `js` and emits dependency
`d1` and an invalidation; every other plugin is an identity that emits
dependency `d2`. -/
def restartTf : Transform :=
  fun t a c =>
    if t = "T1" then
      .ok { asset := { a with asset_type := "js" }, code := c
            dependencies := ["d1"], invalidations := [Invalidation.InvalidateOnStartup] }
    else
      .ok { asset := a, code := c, dependencies := ["d2"], invalidations := [] }

/-- A plain source-file request carrying its own code bytes. -/
def plainReq : AssetRequest :=
  { file_path := ["src", "a.js"], code := some [7], pipeline := none
    env := "", side_effects := true }

/-- Collaborators mapping every file to the empty transformer chain. -/
def emptyChainEnv : RunEnv :=
  { tm := fun _ _ _ => []
    tf := fun _ _ _ => .error ["unused"]
    fsRead := fun _ => .error "unused"
    xxh3 := fun c => c.length
    assetId := fun _ => 5 }

/-- Collaborators with a one-plugin chain whose plugin always fails with the
diagnostics `["boom"]`. -/
def failEnv : RunEnv :=
  { tm := fun _ _ _ => ["bad"]
    tf := fun _ _ _ => .error ["boom"]
    fsRead := fun _ => .error "unused"
    xxh3 := fun _ => 0
    assetId := fun _ => 0 }

/-- A request whose path contains a `node_modules` component. -/
def nodeModulesReq : AssetRequest :=
  { file_path := ["pkg", "node_modules", "x.js"], code := some [1], pipeline := none
    env := "", side_effects := false }

/-- Collaborators with a one-plugin chain whose plugin sets the `IS_SOURCE`
flag on whatever asset it receives (a transformer returns a full asset
record, so it can overwrite flags). -/
def flagOverrideEnv : RunEnv :=
  { tm := fun _ _ _ => ["flagger"]
    tf := fun _ a c =>
      .ok { asset := { a with flags := { a.flags with isSource := true } }, code := c
            dependencies := [], invalidations := [] }
    fsRead := fun _ => .error "unused"
    xxh3 := fun _ => 0
    assetId := fun _ => 0 }

/-- A request carrying 2^32 code bytes (the smallest length at which the
`len as u32` cast in `AssetRequest::run` truncates). -/
def bigReq : AssetRequest :=
  { file_path := ["big.bin"], code := some (List.replicate (2 ^ 32) 0), pipeline := none
    env := "", side_effects := false }

/-- The pipeline result of running `bigReq` through the empty chain: asset
and code pass through unchanged. -/
def bigP : TransformerResult :=
  { asset := bigReq.initialAsset, code := List.replicate (2 ^ 32) 0
    dependencies := [], invalidations := [] }

/-- A request with no caller-supplied code. -/
def noCodeReq : AssetRequest :=
  { file_path := ["missing.js"], code := none, pipeline := none
    env := "", side_effects := false }

/-- Collaborators whose file-system read always fails. -/
def failReadEnv : RunEnv :=
  { tm := fun _ _ _ => []
    tf := fun _ _ _ => .error ["unused"]
    fsRead := fun _ => .error "ENOENT"
    xxh3 := fun _ => 0
    assetId := fun _ => 0 }

/-- The state after `Slab::<[u32; 2]>::alloc(3)` on a fresh thread-local
state: one 64 KiB page, cursor past the 24 rounded bytes. -/
def allocW1 : AllocState :=
  { pages := [PAGE_SIZE], mem := fun _ => ⟨0, 0⟩, arenaAddr := 24, freeHead := 1 }

/-- The state after `Arena::alloc(8)` on a fresh thread-local state. -/
def arenaW1 : AllocState :=
  { pages := [PAGE_SIZE], mem := fun _ => ⟨0, 0⟩, arenaAddr := 8, freeHead := 1 }

/-- The state after the matching LIFO `Arena::dealloc` of that block. -/
def arenaW2 : AllocState :=
  { pages := [PAGE_SIZE], mem := fun _ => ⟨0, 0⟩, arenaAddr := 0, freeHead := 1 }

/-
Helper lemmas about the allocator model.
-/

theorem round8_of_mult8 (n : Nat) (h8 : n % 8 = 0) : round8 n = n := by
  unfold round8; omega

theorem round8u32_of_small (n : Nat) (h8 : n % 8 = 0) (h : n < 65536) :
    round8u32 n = n := by
  unfold round8u32 U32; omega

theorem pack_mul_add (p off : Nat) (hp : p < 65536) (hoff : off < 65536) :
    pack_addr p off = p * 65536 + off := by
  unfold pack_addr; omega

theorem unpack_mul_add (p off : Nat) (hp : p < 65536) (hoff : off < 65536) :
    unpack_addr (p * 65536 + off) = (p, off) := by
  simp only [unpack_addr, Prod.mk.injEq]
  omega

theorem getD_concat_length (l : List Nat) (x d : Nat) :
    (l ++ [x]).getD l.length d = x := by
  induction l with
  | nil => rfl
  | cons a t ih => simp only [List.cons_append, List.length_cons, List.getD_cons_succ]; exact ih

theorem arenaAlloc_fresh (s : AllocState) (n : Nat) (hA : s.arenaAddr = 1) :
    arenaAlloc s n =
      ({ s with
          pages := s.pages ++ [max (round8u32 n) PAGE_SIZE],
          arenaAddr := pack_addr s.pages.length (round8u32 n) },
        pack_addr s.pages.length 0) := by
  simp only [arenaAlloc, allocPage]
  rw [if_pos hA]

theorem arenaAlloc_newpage (s : AllocState) (n : Nat) (hA : s.arenaAddr ≠ 1)
    (hfull : s.pages.getD (unpack_addr s.arenaAddr).1 0 ≤
      ((unpack_addr s.arenaAddr).2 + round8u32 n) % U32) :
    arenaAlloc s n =
      ({ s with
          pages := s.pages ++ [max (round8u32 n) PAGE_SIZE],
          arenaAddr := pack_addr s.pages.length (round8u32 n) },
        pack_addr s.pages.length 0) := by
  simp only [arenaAlloc, allocPage]
  rw [if_neg hA, if_pos hfull]

theorem arenaAlloc_bump (s : AllocState) (n : Nat) (hA : s.arenaAddr ≠ 1)
    (hfit : ((unpack_addr s.arenaAddr).2 + round8u32 n) % U32 <
      s.pages.getD (unpack_addr s.arenaAddr).1 0) :
    arenaAlloc s n =
      ({ s with arenaAddr := (s.arenaAddr + round8u32 n) % U32 }, s.arenaAddr) := by
  simp only [arenaAlloc]
  rw [if_neg hA, if_neg (Nat.not_le.mpr hfit)]

/-- Core of the arena LIFO round trip: if the cursor sits at `off + n` on a
64 KiB page `p` (the state just after an 8-aligned allocation of `n` bytes at
`(p, off)`), then deallocating that block and allocating `n` again yields the
address `p * 65536 + off` back. -/
theorem arena_dealloc_alloc_aux (s1 : AllocState) (p off n : Nat)
    (hpageLen : s1.pages.getD p 0 = PAGE_SIZE)
    (hA1 : s1.arenaAddr = p * 65536 + (off + n))
    (hp : p < 65536) (hfit : off + n < 65536) (hpos : 0 < n)
    (hoff8 : off % 8 = 0)
    (hr : round8 n = n) (hr32 : round8u32 n = n) :
    (arenaAlloc (arenaDealloc s1 p off n) n).2 = p * 65536 + off := by
  have hu1 : unpack_addr s1.arenaAddr = (p, off + n) := by
    rw [hA1]
    exact unpack_mul_add p (off + n) hp hfit
  have hd : arenaDealloc s1 p off n = { s1 with arenaAddr := p * 65536 + off } := by
    simp only [arenaDealloc, hu1]
    rw [if_neg (by omega), if_pos ⟨trivial, by rw [hr]⟩]
    have harith : (s1.arenaAddr + U32 - n % U32) % U32 = p * 65536 + off := by
      rw [hA1]
      unfold U32
      omega
    rw [harith]
  rw [hd]
  have hA2 : ({ s1 with arenaAddr := p * 65536 + off } : AllocState).arenaAddr ≠ 1 := by
    show p * 65536 + off ≠ 1
    omega
  have hu2 : unpack_addr ({ s1 with arenaAddr := p * 65536 + off } : AllocState).arenaAddr
      = (p, off) := by
    show unpack_addr (p * 65536 + off) = (p, off)
    exact unpack_mul_add p off hp (by omega)
  have hfit2 : ((unpack_addr ({ s1 with arenaAddr := p * 65536 + off } : AllocState).arenaAddr).2
        + round8u32 n) % U32 <
      ({ s1 with arenaAddr := p * 65536 + off } : AllocState).pages.getD
        (unpack_addr ({ s1 with arenaAddr := p * 65536 + off } : AllocState).arenaAddr).1 0 := by
    rw [hu2, hr32]
    show (off + n) % U32 < s1.pages.getD p 0
    rw [hpageLen]
    unfold U32 PAGE_SIZE
    omega
  rw [arenaAlloc_bump _ n hA2 hfit2]

/-- Fresh-page/new-page arm of the arena LIFO round trip: the case in which
`Arena::alloc` placed the block at offset 0 of a newly appended 64 KiB
page. -/
theorem arena_newpage_roundtrip (s s1 s2 : AllocState) (n a : Nat)
    (hn : n < 65536) (hpos : 0 < n) (h8 : n % 8 = 0)
    (hcount : s.pages.length < 65535)
    (hshape : arenaAlloc s n =
      ({ s with
          pages := s.pages ++ [max (round8u32 n) PAGE_SIZE],
          arenaAddr := pack_addr s.pages.length (round8u32 n) },
        pack_addr s.pages.length 0))
    (h1 : arenaAlloc s n = (s1, a))
    (h2 : s2 = arenaDealloc s1 (unpack_addr a).1 (unpack_addr a).2 n) :
    (arenaAlloc s2 n).2 = a := by
  have hr32 : round8u32 n = n := round8u32_of_small n h8 hn
  have hr : round8 n = n := round8_of_mult8 n h8
  rw [hshape, Prod.mk.injEq] at h1
  obtain ⟨hs1, ha⟩ := h1
  subst hs1
  subst ha
  subst h2
  have hp : s.pages.length < 65536 := by omega
  rw [pack_mul_add s.pages.length 0 hp (by omega)]
  rw [unpack_mul_add s.pages.length 0 hp (by omega)]
  have hmax : max (round8u32 n) PAGE_SIZE = PAGE_SIZE := by
    rw [hr32]
    unfold PAGE_SIZE
    omega
  have hlen : (s.pages ++ [max (round8u32 n) PAGE_SIZE]).getD s.pages.length 0 = PAGE_SIZE := by
    rw [hmax]
    exact getD_concat_length s.pages PAGE_SIZE 0
  have hA1 : pack_addr s.pages.length (round8u32 n) = s.pages.length * 65536 + (0 + n) := by
    rw [hr32, pack_mul_add s.pages.length n hp hn]
    omega
  exact arena_dealloc_alloc_aux _ s.pages.length 0 n hlen hA1 hp (by omega) hpos (by omega) hr hr32

/-- C9 (amended). For a well-formed arena state (32-bit cursor that is the
null handle 1 or 8-aligned, 64 KiB pages, fewer than 2^16 - 1 pages) and an
allocation size `n` that is a positive multiple of 8 below the page size:
if `a = Arena::alloc(n)` is immediately followed by `Arena::dealloc(a,
layout of size n)`, the next `Arena::alloc(n)` returns `a` again; and any
`dealloc` whose block end (pointer plus rounded size) does not coincide with
the cursor position leaves the cursor unchanged. (The unamended claim fails
for sizes that are not multiples of 8, because `dealloc` subtracts the
unrounded `layout.size()` while `alloc` advanced by the rounded size.) -/
theorem arena_lifo_roundtrip (s s1 s2 : AllocState) (n a : Nat)
    (hpos : 0 < n) (h8 : n % 8 = 0) (hsmall : n < PAGE_SIZE)
    (haddr : s.arenaAddr < U32)
    (haligned : s.arenaAddr = 1 ∨ s.arenaAddr % 8 = 0)
    (hpages : ∀ l ∈ s.pages, l = PAGE_SIZE)
    (hcount : s.pages.length < 65535)
    (h1 : arenaAlloc s n = (s1, a))
    (h2 : s2 = arenaDealloc s1 (unpack_addr a).1 (unpack_addr a).2 n) :
    (arenaAlloc s2 n).2 = a ∧
    ∀ (t : AllocState) (qp qo m : Nat),
      ¬(qp = (unpack_addr t.arenaAddr).1 ∧ qo + round8 m = (unpack_addr t.arenaAddr).2) →
      arenaDealloc t qp qo m = t := by
  have hn : n < 65536 := hsmall
  constructor
  · by_cases hA : s.arenaAddr = 1
    · exact arena_newpage_roundtrip s s1 s2 n a hn hpos h8 hcount (arenaAlloc_fresh s n hA) h1 h2
    · by_cases hfull : s.pages.getD (unpack_addr s.arenaAddr).1 0 ≤
          ((unpack_addr s.arenaAddr).2 + round8u32 n) % U32
      · exact arena_newpage_roundtrip s s1 s2 n a hn hpos h8 hcount
          (arenaAlloc_newpage s n hA hfull) h1 h2
      · have hfit := Nat.not_le.mp hfull
        have hr32 : round8u32 n = n := round8u32_of_small n h8 hn
        have hr : round8 n = n := round8_of_mult8 n h8
        rw [arenaAlloc_bump s n hA hfit, Prod.mk.injEq] at h1
        obtain ⟨hs1, ha⟩ := h1
        subst hs1
        subst ha
        subst h2
        have halign : s.arenaAddr % 8 = 0 := haligned.resolve_left hA
        have hp0 : s.arenaAddr / 65536 < 65536 := by
          unfold U32 at haddr
          omega
        have hu : unpack_addr s.arenaAddr = (s.arenaAddr / 65536, s.arenaAddr % 65536) := by
          have hb : s.arenaAddr < 4294967296 := haddr
          unfold unpack_addr
          simp only [Prod.mk.injEq, and_true]
          omega
        simp only [hu, hr32] at hfit
        have hL : s.pages.getD (s.arenaAddr / 65536) 0 = PAGE_SIZE := by
          rcases Nat.lt_or_ge (s.arenaAddr / 65536) s.pages.length with hlt | hge
          · rw [List.getD_eq_getElem s.pages 0 hlt]
            exact hpages _ (List.getElem_mem hlt)
          · exfalso
            rw [List.getD_eq_default s.pages 0 hge] at hfit
            omega
        have hofffit : s.arenaAddr % 65536 + n < 65536 := by
          rw [hL] at hfit
          unfold PAGE_SIZE at hfit
          unfold U32 at hfit
          omega
        simp only [hu, hr32]
        have hA1 : (s.arenaAddr + n) % U32
            = s.arenaAddr / 65536 * 65536 + (s.arenaAddr % 65536 + n) := by
          unfold U32 at haddr ⊢
          omega
        have key := arena_dealloc_alloc_aux
          { s with arenaAddr := (s.arenaAddr + n) % U32 }
          (s.arenaAddr / 65536) (s.arenaAddr % 65536) n hL hA1 hp0 hofffit hpos
          (by omega) hr hr32
        have haeq : s.arenaAddr / 65536 * 65536 + s.arenaAddr % 65536 = s.arenaAddr := by
          omega
        rw [haeq] at key
        exact key
  · intro t qp qo m h
    by_cases h0 : (unpack_addr t.arenaAddr).2 = 0
    · simp [arenaDealloc, h0]
    · simp [arenaDealloc, h0, h]

/-- C9 (counterexample to the unamended claim). From a fresh arena,
`a = Arena::alloc(4)` returns address 0 and leaves the cursor at the rounded
offset 8; the immediately following `Arena::dealloc(a, layout of size 4)`
matches the cursor (`0 + round8(4) = 8`) but subtracts only the unrounded 4,
so the next `Arena::alloc(4)` returns 4, not 0. -/
theorem arena_lifo_unrounded_cex :
    arenaLifoUnroundedRun = (0, 4) ∧ (0 : Nat) ≠ 4 := by decide

/-- C9 (witness). The amended round trip at `n = 8` on a fresh state. -/
theorem arena_lifo_roundtrip_witness :
    (0 : Nat) < 8 ∧ (8 : Nat) % 8 = 0 ∧ (8 : Nat) < PAGE_SIZE ∧
    freshAllocState.arenaAddr < U32 ∧ freshAllocState.arenaAddr = 1 ∧
    freshAllocState.pages = [] ∧
    arenaAlloc freshAllocState 8 = (arenaW1, 0) ∧
    arenaW2 = arenaDealloc arenaW1 (unpack_addr 0).1 (unpack_addr 0).2 8 ∧
    (arenaAlloc arenaW2 8).2 = 0 :=
  ⟨by decide, by decide, by decide, by decide, rfl, rfl, rfl, rfl,
    (arena_lifo_roundtrip freshAllocState arenaW1 arenaW2 8 0
      (by decide) (by decide) (by decide) (by decide) (Or.inl rfl)
      (by intro l hl; simp [freshAllocState] at hl) (by decide) rfl rfl).1⟩

/-- C7. The §8 slab-reuse scenario: on a fresh thread-local state with
element size 8, the call sequence `alloc(5); alloc(2); dealloc(0, 5);
alloc(1); dealloc(40, 2); alloc(4)` returns the addresses 0, 40, 32, 0, in
order (first-fit walk, tail split of a larger run, unlink of an exact
fit). -/
theorem slab_reuse_sequence_spec :
    slabReuseSequence = some [0, 40, 32, 0] := by decide

/-- C8 (amended). For every slab state: if `addr = Slab::alloc(k)` is
followed by `Slab::dealloc(addr, k)` and `addr` is not 1 (the free-list
sentinel value), then the next `Slab::alloc(k)` returns `addr` again —
the freed run is the head of the free list and fits exactly, so it is
unlinked and handed back. (The unamended claim fails when `addr = 1`:
`dealloc(1, k)` makes `free_head = 1`, which `alloc` reads as the empty
free list.) -/
theorem slab_roundtrip (s s1 : AllocState) (a k sizeT f1 f2 : Nat)
    (_halloc : slabAlloc f1 sizeT s k = some (s1, a)) (hne : a ≠ 1) :
    (slabAlloc (f2 + 1) sizeT (slabDealloc s1 a k) k).map Prod.snd = some a := by
  unfold slabAlloc
  rw [if_neg (show ¬(slabDealloc s1 a k).freeHead = 1 from fun hh => hne hh)]
  simp [slabWalk, slabDealloc]

/-- C8 (counterexample to the unamended claim). With `size_of::<T>() = 1`,
starting fresh: `alloc(5) = 0`, `dealloc(0, 5)`, then `alloc(4)` splits the
run and returns address 1. Freeing it with `dealloc(1, 4)` sets
`free_head = 1`, so the next `alloc(4)` bump-allocates address 8 from the
arena instead of returning 1. -/
theorem slab_roundtrip_sentinel_cex :
    slabSentinelRun = some (1, 8) ∧ (1 : Nat) ≠ 8 := by decide

/-- C8 (witness). The amended round trip at `k = 3`, element size 8, on a
fresh state. -/
theorem slab_roundtrip_witness :
    slabAlloc 1 8 freshAllocState 3 = some (allocW1, 0) ∧ (0 : Nat) ≠ 1 ∧
    (slabAlloc 1 8 (slabDealloc allocW1 0 3) 3).map Prod.snd = some 0 :=
  ⟨rfl, by decide, slab_roundtrip freshAllocState allocW1 0 3 8 1 0 rfl (by decide)⟩

/-- C2. One step of `run_pipeline` at a transformer that changes the asset
type: the transformer map is re-queried at the file path carrying the new
type's extension; if the returned chain is not equal to the current chain,
the pipeline restarts from the start of the new chain on the transformed
asset and code (the remaining transformers `rest` are skipped — they do not
appear in that branch); if the returned chain equals the current chain,
execution continues with the next transformer of the current chain and no
restart occurs. -/
theorem run_pipeline_type_change (tf : Transform) (tm : PipelineMap) (fuel : Nat)
    (pipeline rest : List PluginNode) (t : PluginNode) (res tr : TransformerResult)
    (h : tf t res.asset res.code = .ok tr)
    (hty : tr.asset.asset_type ≠ res.asset.asset_type) :
    runPipelineGo tf tm (fuel + 1) pipeline (t :: rest) res =
      if tm (FilePath.withExtension tr.asset.file_path (AssetType.extension tr.asset.asset_type))
          tr.asset.pipeline false = pipeline then
        runPipelineGo tf tm fuel pipeline rest (stepResult res tr)
      else
        runPipeline tf tm fuel
          (tm (FilePath.withExtension tr.asset.file_path
            (AssetType.extension tr.asset.asset_type)) tr.asset.pipeline false)
          tr.asset tr.code := by
  simp only [runPipelineGo, h, runPipeline]
  rw [if_neg hty]

/-- C2 (witness). The type-changing step at the concrete `T1` transformer,
whose re-queried chain `[T3]` differs from the current `[T1, T2]`. -/
theorem run_pipeline_type_change_witness :
    restartTf "T1" tsRes.asset tsRes.code = .ok tr1 ∧
    tr1.asset.asset_type ≠ tsRes.asset.asset_type ∧
    runPipelineGo restartTf restartTm 2 ["T1", "T2"] ["T1", "T2"] tsRes =
      (if restartTm (FilePath.withExtension tr1.asset.file_path
            (AssetType.extension tr1.asset.asset_type)) tr1.asset.pipeline false
          = ["T1", "T2"] then
        runPipelineGo restartTf restartTm 1 ["T1", "T2"] ["T2"] (stepResult tsRes tr1)
      else
        runPipeline restartTf restartTm 1
          (restartTm (FilePath.withExtension tr1.asset.file_path
            (AssetType.extension tr1.asset.asset_type)) tr1.asset.pipeline false)
          tr1.asset tr1.code) :=
  ⟨rfl, by decide,
    run_pipeline_type_change restartTf restartTm 1 ["T1", "T2"] ["T2"] "T1" tsRes tr1
      rfl (by decide)⟩

/-- C6 (amended). How `run_pipeline` accumulates: an exhausted chain returns
the accumulator; a successful transformer that does not trigger a restart
(same `asset_type`, or an equal re-queried chain) appends its dependencies
and invalidations to the accumulators, in execution order; a transformer
that triggers a restart hands the transformed asset and code to the new
chain with *empty* accumulators, so dependencies and invalidations gathered
before the restart (and those of the restart-triggering transformer itself)
are discarded. -/
theorem run_pipeline_accumulation (tf : Transform) (tm : PipelineMap) (fuel : Nat)
    (pipeline rest : List PluginNode) (t : PluginNode) (res tr : TransformerResult)
    (h : tf t res.asset res.code = .ok tr) :
    runPipelineGo tf tm (fuel + 1) pipeline [] res = some (.ok res) ∧
    ((tr.asset.asset_type = res.asset.asset_type ∨
        tm (FilePath.withExtension tr.asset.file_path (AssetType.extension tr.asset.asset_type))
          tr.asset.pipeline false = pipeline) →
      runPipelineGo tf tm (fuel + 1) pipeline (t :: rest) res =
        runPipelineGo tf tm fuel pipeline rest
          { asset := tr.asset, code := tr.code
            dependencies := res.dependencies ++ tr.dependencies
            invalidations := res.invalidations ++ tr.invalidations }) ∧
    (tr.asset.asset_type ≠ res.asset.asset_type →
      tm (FilePath.withExtension tr.asset.file_path (AssetType.extension tr.asset.asset_type))
          tr.asset.pipeline false ≠ pipeline →
      runPipelineGo tf tm (fuel + 1) pipeline (t :: rest) res =
        runPipelineGo tf tm fuel
          (tm (FilePath.withExtension tr.asset.file_path
            (AssetType.extension tr.asset.asset_type)) tr.asset.pipeline false)
          (tm (FilePath.withExtension tr.asset.file_path
            (AssetType.extension tr.asset.asset_type)) tr.asset.pipeline false)
          { asset := tr.asset, code := tr.code, dependencies := [], invalidations := [] }) := by
  refine ⟨rfl, ?_, ?_⟩
  · intro hcont
    rcases hcont with hsame | hchain
    · simp only [runPipelineGo, h, stepResult]
      rw [if_pos hsame]
    · simp only [runPipelineGo, h, stepResult]
      by_cases hsame : tr.asset.asset_type = res.asset.asset_type
      · rw [if_pos hsame]
      · rw [if_neg hsame, if_pos hchain]
  · intro hty hne
    simp only [runPipelineGo, h]
    rw [if_neg hty, if_neg hne]

/-- C6 (counterexample to the unamended claim). Running the chain
`[T1, T2]` on `a.ts`: `T1` produces dependency `d1` and an invalidation and
flips the type, which restarts the pipeline on chain `[T3]`; `T3` produces
`d2`. The pipeline succeeds, yet the returned dependency list is `[d2]` —
the dependency `d1` produced by the invoked transformer `T1` is not in it,
and the invalidation list is empty. -/
theorem run_pipeline_restart_discards_cex :
    restartTf "T1" tsAsset [9] = .ok tr1 ∧
    tr1.dependencies = ["d1"] ∧
    tr1.invalidations = [Invalidation.InvalidateOnStartup] ∧
    runPipeline restartTf restartTm 3 (restartTm ["a.ts"] none false) tsAsset [9] =
      some (.ok { asset := { tsAsset with asset_type := "js" }, code := [9]
                  dependencies := ["d2"], invalidations := [] }) ∧
    "d1" ∉ (["d2"] : List Dependency) := by
  refine ⟨rfl, rfl, rfl, by decide, by decide⟩

/-- C6 (witness). The amended accumulation equations at the concrete `T1`
step with a non-empty accumulator. -/
theorem run_pipeline_accumulation_witness :
    restartTf "T1" tsRes.asset tsRes.code = .ok tr1 ∧
    (runPipelineGo restartTf restartTm 2 ["T1", "T2"] [] tsRes = some (.ok tsRes) ∧
    ((tr1.asset.asset_type = tsRes.asset.asset_type ∨
        restartTm (FilePath.withExtension tr1.asset.file_path
            (AssetType.extension tr1.asset.asset_type)) tr1.asset.pipeline false
          = ["T1", "T2"]) →
      runPipelineGo restartTf restartTm 2 ["T1", "T2"] ["T1", "T2"] tsRes =
        runPipelineGo restartTf restartTm 1 ["T1", "T2"] ["T2"]
          { asset := tr1.asset, code := tr1.code
            dependencies := tsRes.dependencies ++ tr1.dependencies
            invalidations := tsRes.invalidations ++ tr1.invalidations }) ∧
    (tr1.asset.asset_type ≠ tsRes.asset.asset_type →
      restartTm (FilePath.withExtension tr1.asset.file_path
          (AssetType.extension tr1.asset.asset_type)) tr1.asset.pipeline false
        ≠ ["T1", "T2"] →
      runPipelineGo restartTf restartTm 2 ["T1", "T2"] ["T1", "T2"] tsRes =
        runPipelineGo restartTf restartTm 1
          (restartTm (FilePath.withExtension tr1.asset.file_path
            (AssetType.extension tr1.asset.asset_type)) tr1.asset.pipeline false)
          (restartTm (FilePath.withExtension tr1.asset.file_path
            (AssetType.extension tr1.asset.asset_type)) tr1.asset.pipeline false)
          { asset := tr1.asset, code := tr1.code, dependencies := [], invalidations := [] })) :=
  ⟨rfl, run_pipeline_accumulation restartTf restartTm 1 ["T1", "T2"] ["T2"] "T1" tsRes tr1 rfl⟩

/-- C1 (amended). The initial asset constructed by `AssetRequest::run`
(lines 44-51) has `IS_SOURCE` set iff no component of the request's
`file_path` equals `node_modules`; and when the transformer chain for the
request is empty, the asset returned by `AssetRequest::run` carries exactly
that initial flag value. (For a non-empty chain the returned flag is
whatever the last transformer produced, since a transformer returns a full
asset record.) -/
theorem asset_isSource_flag (req : AssetRequest) (env : RunEnv) (code : Code) (fuel : Nat)
    (hcode : req.code = some code)
    (hchain : env.tm req.file_path req.pipeline false = []) :
    (req.initialAsset.flags.isSource = true ↔ "node_modules" ∉ req.file_path) ∧
    (outcomeAsset (AssetRequest.run env (fuel + 1) req)).map (fun a => a.flags.isSource)
      = some req.initialAsset.flags.isSource := by
  constructor
  · simp only [AssetRequest.initialAsset, Bool.not_eq_true', List.any_eq_true,
      decide_eq_true_eq, Bool.not_eq_false', List.any_eq_false]
    exact ⟨fun h hmem => h _ hmem rfl, fun h x hx he => h (he ▸ hx)⟩
  · simp only [AssetRequest.run, hcode, hchain, runPipeline, runPipelineGo, outcomeAsset,
      Option.map]

/-- C1 (counterexample to the unamended claim). The request for
`pkg/node_modules/x.js` has `node_modules` among its path components, yet
with a chain containing a transformer that sets `IS_SOURCE`, the asset
returned by `AssetRequest::run` has the flag set. -/
theorem asset_isSource_override_cex :
    "node_modules" ∈ nodeModulesReq.file_path ∧
    (outcomeAsset (AssetRequest.run flagOverrideEnv 2 nodeModulesReq)).map
      (fun a => a.flags.isSource) = some true := by decide

/-- C1 (witness). The amended statement at a plain source file with an
empty chain. -/
theorem asset_isSource_flag_witness :
    plainReq.code = some [7] ∧
    emptyChainEnv.tm plainReq.file_path plainReq.pipeline false = [] ∧
    ((plainReq.initialAsset.flags.isSource = true ↔ "node_modules" ∉ plainReq.file_path) ∧
    (outcomeAsset (AssetRequest.run emptyChainEnv 1 plainReq)).map (fun a => a.flags.isSource)
      = some plainReq.initialAsset.flags.isSource) :=
  ⟨rfl, rfl, asset_isSource_flag plainReq emptyChainEnv [7] 0 rfl rfl⟩

/-- Unfolding of `AssetRequest::run` on a request with caller-supplied code
whose pipeline succeeds with result `p` (lines 82-107 of
`asset_request.rs`). -/
theorem run_ok_eq (env : RunEnv) (req : AssetRequest) (fuel : Nat)
    (code0 : Code) (p : TransformerResult)
    (hcode : req.code = some code0)
    (hp : runPipeline env.tf env.tm fuel (env.tm req.file_path req.pipeline false)
        req.initialAsset code0 = some (.ok p)) :
    AssetRequest.run env fuel req =
      .returns
        (.ok { asset := { p.asset with
                  output_hash := env.xxh3 p.code
                  content_key := env.assetId { p.asset with output_hash := env.xxh3 p.code }
                  stats := { p.asset.stats with size := p.code.length % 2 ^ 32 } }
               dependencies := p.dependencies })
        (p.invalidations ++ [.InvalidateOnFileUpdate req.file_path])
        [(format016x (env.assetId { p.asset with output_hash := env.xxh3 p.code }), p.code)] := by
  simp only [AssetRequest.run, hcode, hp]

/-- The returned `stats.size` of a successful run, read off `run_ok_eq`. -/
theorem run_size_of (env : RunEnv) (req : AssetRequest) (fuel : Nat)
    (code0 : Code) (p : TransformerResult)
    (hcode : req.code = some code0)
    (hp : runPipeline env.tf env.tm fuel (env.tm req.file_path req.pipeline false)
        req.initialAsset code0 = some (.ok p)) :
    (outcomeAsset (AssetRequest.run env fuel req)).map (fun a => a.stats.size)
      = some (p.code.length % 2 ^ 32) := by
  rw [run_ok_eq env req fuel code0 p hcode hp]
  rfl

/-- C3 (amended). For every request whose pipeline succeeds with result `p`
(and whose bytes were caller-supplied): `AssetRequest::run` returns the
asset with `output_hash = xxh3_64(final bytes)`,
`content_key = asset.id()` (the identity hash of the asset with the fresh
output hash), and `stats.size = len(final bytes) mod 2^32` (the `as u32`
cast truncates), the pipeline's dependencies, the invalidations with the
file-update entry appended, and exactly one blob-cache write
`(format!("{:016x}", content_key), final bytes)`. The unamended claim
states `stats.size = len(final_bytes)`, which fails once the length
reaches 2^32. -/
theorem assetRequest_success_outputs (env : RunEnv) (req : AssetRequest) (fuel : Nat)
    (code0 : Code) (p : TransformerResult)
    (hcode : req.code = some code0)
    (hp : runPipeline env.tf env.tm fuel (env.tm req.file_path req.pipeline false)
        req.initialAsset code0 = some (.ok p)) :
    AssetRequest.run env fuel req =
      .returns
        (.ok { asset := { p.asset with
                  output_hash := env.xxh3 p.code
                  content_key := env.assetId { p.asset with output_hash := env.xxh3 p.code }
                  stats := { p.asset.stats with size := p.code.length % 2 ^ 32 } }
               dependencies := p.dependencies })
        (p.invalidations ++ [.InvalidateOnFileUpdate req.file_path])
        [(format016x (env.assetId { p.asset with output_hash := env.xxh3 p.code }), p.code)] :=
  run_ok_eq env req fuel code0 p hcode hp

/-- C3 (counterexample to the unamended claim). A request carrying 2^32
code bytes through an empty chain: the returned `stats.size` is 0, not
2^32. -/
theorem assetRequest_size_truncation_cex :
    (outcomeAsset (AssetRequest.run failReadEnv 1 bigReq)).map (fun a => a.stats.size)
      = some 0 ∧
    bigReq.code.map List.length = some (2 ^ 32) ∧ (0 : Nat) ≠ 2 ^ 32 := by
  refine ⟨?_, ?_, by norm_num⟩
  · have h := run_size_of failReadEnv bigReq 1 (List.replicate (2 ^ 32) 0) bigP rfl rfl
    rw [h, show bigP.code = List.replicate (2 ^ 32) 0 from rfl, List.length_replicate,
      Nat.mod_self]
  · rw [show bigReq.code = some (List.replicate (2 ^ 32) 0) from rfl]
    simp only [Option.map]
    rw [List.length_replicate]

/-- C3 (witness). The amended statement on a one-transformer-free request
with 1 code byte, length hash 1 and identity hash 5. -/
theorem assetRequest_success_outputs_witness :
    plainReq.code = some [7] ∧
    runPipeline emptyChainEnv.tf emptyChainEnv.tm 1
        (emptyChainEnv.tm plainReq.file_path plainReq.pipeline false)
        plainReq.initialAsset [7]
      = some (.ok { asset := plainReq.initialAsset, code := [7]
                    dependencies := [], invalidations := [] }) ∧
    AssetRequest.run emptyChainEnv 1 plainReq =
      .returns
        (.ok { asset := { plainReq.initialAsset with
                  output_hash := 1, content_key := 5
                  stats := { size := 1, time := 0 } }
               dependencies := [] })
        [.InvalidateOnFileUpdate ["src", "a.js"]]
        [("0000000000000005", [7])] :=
  ⟨rfl, rfl,
    assetRequest_success_outputs emptyChainEnv plainReq 1 [7]
      { asset := plainReq.initialAsset, code := [7], dependencies := [], invalidations := [] }
      rfl rfl⟩

/-- C4. A transformer error stops the pipeline at that transformer (the
remaining transformers `rest` never influence the result), the diagnostics
are returned unchanged, and `AssetRequest::run` then returns exactly those
diagnostics as the error result with no blob-cache write and only the
file-update invalidation. -/
theorem assetRequest_error_propagation (env : RunEnv) (fuel : Nat)
    (pipeline rest : List PluginNode) (t : PluginNode) (res : TransformerResult)
    (ds : List Diagnostic) (req : AssetRequest) (code0 : Code)
    (herr : env.tf t res.asset res.code = .error ds)
    (hcode : req.code = some code0) :
    runPipelineGo env.tf env.tm (fuel + 1) pipeline (t :: rest) res = some (.error ds) ∧
    (runPipeline env.tf env.tm fuel (env.tm req.file_path req.pipeline false)
        req.initialAsset code0 = some (.error ds) →
      AssetRequest.run env fuel req =
        .returns (.error ds) [.InvalidateOnFileUpdate req.file_path] []) := by
  constructor
  · simp only [runPipelineGo, herr]
  · intro hp
    simp only [AssetRequest.run, hcode, hp]

/-- C4 (witness). The failing one-plugin chain `[bad]` with diagnostics
`["boom"]`. -/
theorem assetRequest_error_propagation_witness :
    failEnv.tf "bad" tsRes.asset tsRes.code = .error ["boom"] ∧
    plainReq.code = some [7] ∧
    (runPipelineGo failEnv.tf failEnv.tm 2 ["bad"] ["bad"] tsRes = some (.error ["boom"]) ∧
    (runPipeline failEnv.tf failEnv.tm 1 (failEnv.tm plainReq.file_path plainReq.pipeline false)
        plainReq.initialAsset [7] = some (.error ["boom"]) →
      AssetRequest.run failEnv 1 plainReq =
        .returns (.error ["boom"]) [.InvalidateOnFileUpdate plainReq.file_path] [])) :=
  ⟨rfl, rfl,
    assetRequest_error_propagation failEnv 1 ["bad"] [] "bad" tsRes ["boom"] plainReq [7]
      rfl rfl⟩

/-- C5. Whenever `AssetRequest::run` returns normally — pipeline success or
pipeline failure — the last element of the returned invalidation list is
`InvalidateOnFileUpdate(file_path)` for the request's file path. -/
theorem assetRequest_invalidation_last (env : RunEnv) (fuel : Nat) (req : AssetRequest)
    (result : Except (List Diagnostic) AssetRequestResult)
    (invals : List Invalidation) (writes : List (String × Code))
    (h : AssetRequest.run env fuel req = .returns result invals writes) :
    invals.getLast? = some (.InvalidateOnFileUpdate req.file_path) := by
  simp only [AssetRequest.run] at h
  split at h
  · simp at h
  · split at h
    · simp at h
    · injection h with h1 h2 h3
      subst h2
      rfl
    · injection h with h1 h2 h3
      subst h2
      exact List.getLast?_concat _

/-- C5 (witness). The failing one-plugin chain: the invalidation list is
exactly `[InvalidateOnFileUpdate(src/a.js)]`, whose last element is the
file-update entry. -/
theorem assetRequest_invalidation_last_witness :
    AssetRequest.run failEnv 1 plainReq =
      .returns (.error ["boom"]) [.InvalidateOnFileUpdate ["src", "a.js"]] [] ∧
    ([Invalidation.InvalidateOnFileUpdate ["src", "a.js"]] : List Invalidation).getLast?
      = some (.InvalidateOnFileUpdate plainReq.file_path) :=
  ⟨rfl, assetRequest_invalidation_last failEnv 1 plainReq _ _ _ rfl⟩

/-- C10 (amended). When a request supplies no code bytes and the file-system
read of its path fails, `AssetRequest::run` panics — the `unwrap()` on line
79 aborts — instead of returning an error result with a Diagnostic. -/
theorem assetRequest_read_failure (env : RunEnv) (fuel : Nat) (req : AssetRequest) (e : String)
    (hcode : req.code = none) (hread : env.fsRead req.file_path = .error e) :
    AssetRequest.run env fuel req = .panicked := by
  simp only [AssetRequest.run, hcode, hread]

/-- C10 (counterexample to the unamended claim). A concrete request with no
code bytes whose read fails: the run panics; no error result carrying a
Diagnostic is produced. -/
theorem assetRequest_read_failure_cex :
    noCodeReq.code = none ∧
    failReadEnv.fsRead noCodeReq.file_path = .error "ENOENT" ∧
    AssetRequest.run failReadEnv 1 noCodeReq = .panicked :=
  ⟨rfl, rfl, rfl⟩

/-- C10 (witness). The amended statement at the same request with a
different fuel. -/
theorem assetRequest_read_failure_witness :
    noCodeReq.code = none ∧
    failReadEnv.fsRead noCodeReq.file_path = .error "ENOENT" ∧
    AssetRequest.run failReadEnv 2 noCodeReq = .panicked :=
  ⟨rfl, rfl, assetRequest_read_failure failReadEnv 2 noCodeReq "ENOENT" rfl rfl⟩

